import Mathlib

set_option maxHeartbeats 1000000
set_option maxRecDepth 10000
set_option linter.unnecessarySeqFocus false

/-!
Shallow embedding of the v3 state-graph orchestrator of the repository
(src/v3_state_graph: state.py, nodes.py, decisions.py, graph.py).

Modelling conventions:
* Python floats are modelled as exact rationals (`Rat`).  All float
  literals of the source (0.7, 0.8, 0.3, ...) are decimal, the thresholds
  are only combined by sums of decimal increments and one multiplication
  by 0.8, and no comparison of the program sits at a point where double
  rounding could flip it, so `Rat` is a faithful model of every branch.
* The external collaborators `search_web` and `call_llm` (tools.py, not
  part of the orchestrator core) are modelled as oracle streams inside a
  `World`: each call consumes one indexed response, which is either a
  value, a `None` result (`CallResult.failure`), or a raised exception
  (`CallResult.raised`).
* `datetime.now()` rendering is the `now` field of the `World`;
  `time.sleep` and `print` are stateless I/O effects and are not
  modelled.  `AgentState.add_log` keeps the message text of each log
  entry; the wall-clock timestamp prefix added by the source is an I/O
  effect outside the model.
* Python `re.findall` with the digit class is modelled over ASCII digits
  (`digitRuns`); non-ASCII Unicode digits are out of scope.
-/

/-- An element of the search-result list (a Python dict with the keys
`title`, `url`, `snippet`). -/
structure Item where
  title : String
  url : String
  snippet : String
deriving DecidableEq, Repr

/-- Outcome of one external call: a value, a `None` return, or a raised
exception carrying the rendered message `str(e)`. -/
inductive CallResult (α : Type) where
  | ok (value : α)
  | failure
  | raised (msg : String)
deriving DecidableEq, Repr

/-- The external world: oracle streams for `search_web` and `call_llm`
(indexed by how many calls of that kind already happened, and receiving
the call arguments), plus the rendering of `datetime.now()`. -/
structure World where
  searchResponses : Nat → String → Int → CallResult (List Item)
  llmResponses : Nat → String → Rat → Nat → CallResult String
  searchIdx : Nat
  llmIdx : Nat
  now : String

/-- One call of `search_web(query, max_results)`: consumes the next
search response. -/
def World.search_web (w : World) (query : String) (max_results : Int) :
    World × CallResult (List Item) :=
  ({ w with searchIdx := w.searchIdx + 1 },
   w.searchResponses w.searchIdx query max_results)

/-- One call of `call_llm(prompt, temperature, max_tokens)`: consumes the
next LLM response. -/
def World.call_llm (w : World) (prompt : String) (temperature : Rat)
    (max_tokens : Nat) : World × CallResult String :=
  ({ w with llmIdx := w.llmIdx + 1 },
   w.llmResponses w.llmIdx prompt temperature max_tokens)

/-- Does the character list `s` start with the character list `p`? -/
def startsWithChars : List Char → List Char → Bool
  | _, [] => true
  | [], _ :: _ => false
  | c :: s, p :: ps => c == p && startsWithChars s ps

/-- Does the character list `s` contain `p` as a contiguous run?  Models
Python's substring containment on lists of characters. -/
def charListContains : List Char → List Char → Bool
  | [], pat => pat.isEmpty
  | c :: rest, pat => startsWithChars (c :: rest) pat || charListContains rest pat

/-- Python's `pat in s` substring test. -/
def strContains (s pat : String) : Bool :=
  charListContains s.data pat.data

/-- Python's `str.strip()` on a character list: drop leading and trailing
whitespace (ASCII whitespace; exotic Unicode whitespace is out of
scope). -/
def pyStripChars (cs : List Char) : List Char :=
  ((cs.dropWhile Char.isWhitespace).reverse.dropWhile Char.isWhitespace).reverse

/-- Python's `str.strip()`. -/
def pyStrip (s : String) : String :=
  String.mk (pyStripChars s.data)

/-- Python's `str.split(sep)` for a one-character separator, on character
lists: `"".split(sep)` is `[""]`, and a trailing separator yields a
trailing empty group. -/
def splitOnCharAux (sep : Char) : List Char → List (List Char)
  | [] => [[]]
  | c :: rest =>
    if c == sep then [] :: splitOnCharAux sep rest
    else
      match splitOnCharAux sep rest with
      | [] => [[c]]
      | g :: gs => (c :: g) :: gs

/-- Python's `str.split(sep)` for a one-character separator. -/
def pySplitChar (s : String) (sep : Char) : List String :=
  (splitOnCharAux sep s.data).map String.mk

/-- Worker for `digitRuns`: `acc` is the value of the digit run currently
being read, if any. -/
def digitRunsAux : List Char → Option Nat → List Nat
  | [], none => []
  | [], some n => [n]
  | c :: rest, acc =>
    if c.isDigit then
      digitRunsAux rest (some ((acc.getD 0) * 10 + (c.toNat - 48)))
    else
      match acc with
      | none => digitRunsAux rest none
      | some n => n :: digitRunsAux rest none

/-- The values of the maximal ASCII-digit runs of a character list, in
order: the `int(n)` images of Python's `re.findall` digit matches. -/
def digitRuns (cs : List Char) : List Nat :=
  digitRunsAux cs none

/-- Rational multiplication through `mkRat`.  Batteries marks `Rat.mul`
`@[irreducible]`, which the kernel's `decide` evaluation cannot unfold;
this definition is proved equal to `·*·` in `ratMul_eq_mul` below and is
used wherever the embedding multiplies two model floats. -/
def ratMul (a b : Rat) : Rat :=
  mkRat (a.num * b.num) (a.den * b.den)

/-- Rational addition through `mkRat` (same reason as `ratMul`); equals
`·+·` by `ratAdd_eq_add` below. -/
def ratAdd (a b : Rat) : Rat :=
  mkRat (a.num * b.den + b.num * a.den) (a.den * b.den)

/-- Python's two-argument `min` on model floats. -/
def pyMin (a b : Rat) : Rat :=
  if a ≤ b then a else b

/-- Round a rational to an integer, half to even (the rounding of
Python's fixed-point float formatting); `twice` is `2 * den * (q - ⌊q⌋)`
compared against `den`. -/
def roundHalfEven (q : Rat) : Int :=
  let f : Int := q.floor
  let twice : Int := 2 * (q.num - f * q.den)
  if twice < (q.den : Int) then f
  else if twice > (q.den : Int) then f + 1
  else if f % 2 = 0 then f else f + 1

/-- Two-decimal rendering of a (non-negative) rational: Python's
`.2f` format of the corresponding float. -/
def fmt2 (q : Rat) : String :=
  let n := roundHalfEven (ratMul q (mkRat 100 1))
  let ip := n / 100
  let fp := (n % 100).toNat
  toString ip ++ "." ++ (if fp < 10 then ("0") ++ toString fp else toString fp)

/-- The mutable run context of one orchestration run
(`AgentState` of state.py), field for field. -/
structure AgentState where
  topic : String
  max_results : Int
  current_step : String
  search_results : List Item
  search_status : String
  search_retry_count : Nat
  search_expanded : Bool
  filtered_results : List Item
  filter_threshold : Rat
  filter_lowered : Bool
  summary : String
  summary_retry_count : Nat
  quality_score : Rat
  final_report : String
  error : Option String
  logs : List String
deriving DecidableEq, Repr

/-- The dataclass defaults of `AgentState(topic=..., max_results=...)`. -/
def AgentState.init (topic : String) (max_results : Int) : AgentState :=
  { topic := topic
    max_results := max_results
    current_step := "start"
    search_results := []
    search_status := "pending"
    search_retry_count := 0
    search_expanded := false
    filtered_results := []
    filter_threshold := mkRat 7 10
    filter_lowered := false
    summary := ""
    summary_retry_count := 0
    quality_score := 0
    final_report := ""
    error := none
    logs := [] }

/-- The `AgentState.add_log`: append an entry to the log list (the timestamp
prefix and the `print` are I/O effects outside the model). -/
def AgentState.add_log (s : AgentState) (message : String) : AgentState :=
  { s with logs := s.logs ++ [message] }

/-- The `AgentState.is_search_retry_limit_reached`. -/
def AgentState.is_search_retry_limit_reached (s : AgentState) : Bool :=
  decide (3 ≤ s.search_retry_count)

/-- The `AgentState.is_summary_retry_limit_reached`. -/
def AgentState.is_summary_retry_limit_reached (s : AgentState) : Bool :=
  decide (2 ≤ s.summary_retry_count)

/-- The `AgentState.has_enough_filtered_results(min_count)`. -/
def AgentState.has_enough_filtered_results (s : AgentState) (min_count : Nat) : Bool :=
  decide (min_count ≤ s.filtered_results.length)

/-- The `AgentState.is_quality_acceptable(min_score)`. -/
def AgentState.is_quality_acceptable (s : AgentState) (min_score : Rat) : Bool :=
  decide (min_score ≤ s.quality_score)

/-- The `AgentState.increment_search_retry`. -/
def AgentState.increment_search_retry (s : AgentState) : AgentState :=
  let s := { s with search_retry_count := s.search_retry_count + 1 }
  s.add_log ("搜索重试 " ++ toString s.search_retry_count ++ "/3")

/-- The `AgentState.increment_summary_retry`. -/
def AgentState.increment_summary_retry (s : AgentState) : AgentState :=
  let s := { s with summary_retry_count := s.summary_retry_count + 1 }
  s.add_log ("摘要重新生成 " ++ toString s.summary_retry_count ++ "/2")

/-- The `AgentState.expand_search`: double `max_results`, set the
`search_expanded` flag. -/
def AgentState.expand_search (s : AgentState) : AgentState :=
  let s := { s with max_results := s.max_results * 2, search_expanded := true }
  s.add_log ("扩大搜索范围至 " ++ toString s.max_results ++ " 条")

/-- The `AgentState.lower_filter_threshold`: multiply `filter_threshold` by
0.8, set the `filter_lowered` flag. -/
def AgentState.lower_filter_threshold (s : AgentState) : AgentState :=
  let s := { s with filter_threshold := ratMul s.filter_threshold (mkRat 8 10), filter_lowered := true }
  s.add_log ("降低筛选阈值至 " ++ fmt2 s.filter_threshold)

/-- The `AgentState.set_error`. -/
def AgentState.set_error (s : AgentState) (error_message : String) : AgentState :=
  let s := { s with error := some error_message }
  s.add_log ("❌ 错误: " ++ error_message)

/-- The enumerated listing of the search results built by `filter_node`
(`results_text`), 1-based. -/
def resultsText (results : List Item) : String :=
  ((List.enumFrom 1 results).map (fun p =>
    "\n" ++ toString p.1 ++ ". 标题: " ++ p.2.title ++ "\n" ++
    "   摘要: " ++ p.2.snippet ++ "\n")).foldl (fun a b => a ++ b) ""

/-- The filtering prompt of `filter_node`. -/
def filterPrompt (topic results_text : String) : String :=
  "你是一个信息筛选助手。请判断以下搜索结果中，哪些与主题「" ++ topic ++
  "」相关。\n\n搜索结果：\n" ++ results_text ++
  "\n\n请按照以下格式返回相关结果的编号（用逗号分隔）：\n相关编号: 1,3,5\n\n" ++
  "如果全部相关，返回：相关编号: 全部\n如果全部不相关，返回：相关编号: 无\n\n" ++
  "只返回编号，不要其他解释。\n"

/-- The `search_node` of nodes.py.  The exponential-backoff `time.sleep` is a
stateless effect (only its log entry is kept); `results is None` is
`CallResult.failure`, a provider exception is `CallResult.raised`. -/
def search_node (w : World) (s : AgentState) : World × AgentState :=
  let s := s.add_log ("🔍 进入搜索节点（第 " ++ toString (s.search_retry_count + 1) ++ " 次")
  let s := { s with current_step := "search" }
  let s := if s.search_retry_count > 0 then
      s.add_log ("⏰  等待  " ++ toString (2 ^ s.search_retry_count) ++ " 秒后重试...")
    else s
  let s := s.add_log ("调用 search_web, 查询：" ++ s.topic ++ ", 数量：" ++ toString s.max_results)
  match w.search_web s.topic s.max_results with
  | (w, CallResult.ok results) =>
    if results.length == 0 then
      let s := { s with search_status := "failed" }
      let s := s.set_error ("搜索返回空结果")
      (w, s.add_log ("❌ 搜索失败：无结果"))
    else
      let s := { s with search_results := results, search_status := "success" }
      (w, s.add_log ("✅ 搜索成功，获取 " ++ toString results.length ++ " 条结果"))
  | (w, CallResult.failure) =>
    let s := { s with search_status := "failed" }
    let s := s.set_error ("搜索返回空结果")
    (w, s.add_log ("❌ 搜索失败：无结果"))
  | (w, CallResult.raised msg) =>
    let s := { s with search_status := "failed" }
    let s := s.set_error ("搜索异常：" ++ msg)
    (w, s.add_log ("❌ 搜索异常：" ++ msg))

/-- The `filter_node` of nodes.py.  The parsing of the LLM reply is total, so
an exception (`CallResult.raised`) can only come from the `call_llm`
call itself; both the `None` reply and the exception fail open. -/
def filter_node (w : World) (s : AgentState) : World × AgentState :=
  let s := s.add_log ("🔍 进入筛选节点")
  let s := { s with current_step := "filter" }
  if s.search_results.length == 0 then
    let s := s.add_log ("⚠️  无搜索结果，跳过筛选")
    (w, { s with filtered_results := [] })
  else
    let prompt := filterPrompt s.topic (resultsText s.search_results)
    let s := s.add_log ("调用 LLM 筛选，阈值: " ++ fmt2 s.filter_threshold)
    match w.call_llm prompt (mkRat 3 10) 200 with
    | (w, CallResult.failure) =>
      let s := s.add_log ("❌ LLM 调用失败")
      (w, { s with filtered_results := s.search_results })
    | (w, CallResult.raised msg) =>
      let s := s.add_log ("❌ 筛选异常: " ++ msg)
      (w, { s with filtered_results := s.search_results })
    | (w, CallResult.ok llm_result) =>
      let s := s.add_log ("LLM 返回: " ++ pyStrip llm_result)
      let relevant_indices : List Int :=
        if strContains llm_result ("全部") then
          (List.range s.search_results.length).map (fun n => Int.ofNat n)
        else if strContains llm_result ("无") then
          []
        else
          ((digitRuns llm_result.data).filter
            (fun n => decide (n ≤ s.search_results.length))).map (fun n => Int.ofNat n - 1)
      let filtered := relevant_indices.filterMap (fun i =>
        if 0 ≤ i ∧ i < Int.ofNat s.search_results.length then
          s.search_results.get? i.toNat
        else none)
      let s := { s with filtered_results := filtered }
      (w, s.add_log ("✅ 筛选完成，从 " ++ toString s.search_results.length ++
        " 条中筛选出 " ++ toString s.filtered_results.length ++ " 条相关结果"))

/-- The enumerated listing of the filtered results built by
`summarize_node` (`content_text`), 1-based. -/
def contentText (results : List Item) : String :=
  ((List.enumFrom 1 results).map (fun p =>
    "\n【信息 " ++ toString p.1 ++ "】\n" ++
    "标题: " ++ p.2.title ++ "\n" ++
    "链接: " ++ p.2.url ++ "\n" ++
    "内容: " ++ p.2.snippet ++ "\n")).foldl (fun a b => a ++ b) ""

/-- The summarization prompt of `summarize_node`: the first attempt and
the retry attempts use different templates. -/
def summarizePrompt (summary_retry_count : Nat) (topic content_text : String) : String :=
  if summary_retry_count == 0 then
    "你是一个信息总结助手。请基于以下信息，生成一份关于「" ++ topic ++
    "」的详细摘要报告。\n\n信息来源：\n" ++ content_text ++
    "\n\n要求：\n1. 总结要全面，涵盖所有关键信息\n2. 使用清晰的段落结构\n" ++
    "3. 至少 200 字\n4. 突出重点和亮点\n\n请生成摘要：\n"
  else
    "你是一个信息总结助手。请基于以下信息，生成一份关于「" ++ topic ++
    "」的**非常详细**的摘要报告。\n\n信息来源：\n" ++ content_text ++
    "\n\n**重要要求**：\n1. 摘要必须**至少 300 字**\n2. 分段组织，每段有明确主题\n" ++
    "3. 包含具体数据、时间、人物等细节\n4. 分析信息之间的关联和趋势\n" ++
    "5. 语言要专业、准确\n\n请生成详细摘要：\n"

/-- The `summarize_node` of nodes.py, including the inline quality scoring. -/
def summarize_node (w : World) (s : AgentState) : World × AgentState :=
  let s := s.add_log ("📝 进入总结节点 (第 " ++ toString (s.summary_retry_count + 1) ++ " 次)")
  let s := { s with current_step := "summarize" }
  if s.filtered_results.length == 0 then
    let s := s.add_log ("⚠️  无筛选结果，无法生成摘要")
    (w, { s with summary := "未找到相关信息。", quality_score := 0 })
  else
    let prompt := summarizePrompt s.summary_retry_count s.topic (contentText s.filtered_results)
    let s := s.add_log ("调用 LLM 生成摘要...")
    match w.call_llm prompt (mkRat 7 10) 1500 with
    | (w, CallResult.failure) =>
      let s := s.add_log ("❌ LLM 调用失败")
      (w, { s with summary := "生成摘要失败。", quality_score := 0 })
    | (w, CallResult.raised msg) =>
      let s := s.add_log ("❌ 生成摘要异常: " ++ msg)
      (w, { s with summary := "生成摘要时出现错误。", quality_score := 0 })
    | (w, CallResult.ok text) =>
      let s := { s with summary := pyStrip text }
      let quality_score : Rat := 0
      let length := s.summary.length
      let quality_score :=
        if length ≥ 300 then ratAdd quality_score (mkRat 5 10)
        else if length ≥ 200 then ratAdd quality_score (mkRat 3 10)
        else if length ≥ 100 then ratAdd quality_score (mkRat 1 10)
        else quality_score
      let paragraphs : List String :=
        (pySplitChar s.summary '\n').filter (fun p => !(pyStrip p).data.isEmpty)
      let quality_score :=
        if paragraphs.length ≥ 3 then ratAdd quality_score (mkRat 3 10)
        else if paragraphs.length ≥ 2 then ratAdd quality_score (mkRat 2 10)
        else quality_score
      let quality_score :=
        if strContains s.summary s.topic then ratAdd quality_score (mkRat 2 10)
        else quality_score
      let s := { s with quality_score := pyMin quality_score 1 }
      (w, s.add_log ("✅ 摘要生成完成，长度: " ++ toString length ++
        " 字，质量评分: " ++ fmt2 s.quality_score))

/-- The `format_node` of nodes.py: the Markdown report, a pure function of
the context (and of the `datetime.now()` rendering `now`). -/
def format_node (now : String) (s : AgentState) : AgentState :=
  let s := s.add_log ("📄 进入格式化节点")
  let s := { s with current_step := "format" }
  let report :=
    "# " ++ s.topic ++ " - 信息摘要报告\n\n**生成时间**: " ++ now ++
    "  \n**信息来源**: " ++ toString s.filtered_results.length ++
    " 条相关资讯  \n**质量评分**: " ++ fmt2 s.quality_score ++
    "/1.00\n\n---\n\n## 📊 摘要\n\n" ++ s.summary ++
    "\n\n---\n\n## 📎 参考来源\n\n"
  let report := report ++
    ((List.enumFrom 1 s.filtered_results).map (fun p =>
      toString p.1 ++ ". **" ++ p.2.title ++ "**  \n" ++
      "   链接: " ++ p.2.url ++ "  \n" ++
      "   摘要: " ++ p.2.snippet ++ "  \n\n")).foldl (fun a b => a ++ b) ""
  let report := report ++
    "---\n\n## 📈 处理统计\n\n- 搜索结果数: " ++ toString s.search_results.length ++
    "\n- 筛选结果数: " ++ toString s.filtered_results.length ++
    "\n- 搜索重试次数: " ++ toString s.search_retry_count ++
    "\n- 摘要重试次数: " ++ toString s.summary_retry_count ++
    "\n- 总执行步骤: " ++ toString s.logs.length ++
    "\n\n---\n\n*本报告由 AI Agent 自动生成*\n"
  let s := { s with final_report := report }
  s.add_log ("✅ Markdown 报告生成完成，共 " ++ toString report.length ++ " 字符")

/-- The `error_node` of nodes.py: the degraded failure report.  Python's
truthiness test `state.error if state.error else "未知错误"` treats both
`None` and the empty string as absent. -/
def error_node (now : String) (s : AgentState) : AgentState :=
  let s := s.add_log ("❌ 进入错误处理节点")
  let s := { s with current_step := "error" }
  let report :=
    "# " ++ s.topic ++ " - 处理失败报告\n\n**生成时间**: " ++ now ++
    "  \n**状态**: ❌ 处理失败\n\n---\n\n## ⚠️ 错误信息\n\n" ++
    (match s.error with
     | some e => if e == "" then ("未知错误") else e
     | none => "未知错误") ++
    "\n\n---\n\n## 📊 已完成的步骤\n\n"
  let report :=
    if s.search_results.length > 0 then
      report ++ "- ✅ 搜索: 获取了 " ++ toString s.search_results.length ++ " 条结果\n" ++
      "\n### 搜索结果\n\n" ++
      ((List.enumFrom 1 (s.search_results.take 3)).map (fun p =>
        toString p.1 ++ ". " ++ p.2.title ++ "  \n" ++
        "   " ++ p.2.url ++ "  \n\n")).foldl (fun a b => a ++ b) ""
    else
      report ++ "- ❌ 搜索: 未获取到结果\n"
  let report :=
    if s.filtered_results.length > 0 then
      report ++ "\n- ✅ 筛选: 筛选出 " ++ toString s.filtered_results.length ++ " 条相关结果\n"
    else report
  let report := report ++
    "\n---\n\n## 🔄 重试统计\n\n- 搜索重试次数: " ++ toString s.search_retry_count ++
    "/3\n- 摘要重试次数: " ++ toString s.summary_retry_count ++
    "/2\n\n---\n\n## 💡 建议\n\n1. 请检查网络连接\n2. 尝试更换搜索关键词\n3. 稍后再试\n\n" ++
    "---\n\n*本报告由 AI Agent 自动生成*\n"
  let s := { s with final_report := report }
  s.add_log ("✅ 错误报告生成完成")

/-- The `decide_after_search` of decisions.py: returns the updated state and
the next-node name. -/
def decide_after_search (s : AgentState) : AgentState × String :=
  if s.search_status == "success" then
    (s.add_log ("✅ 决策：搜索成功 → 进入筛选"), "filter")
  else
    (s.add_log ("❌ 决策：搜索失败 → 检查重试次数"), "retry")

/-- The `decide_retry` of decisions.py: below the limit it increments the
retry counter as a side effect of selecting the `search` branch. -/
def decide_retry (s : AgentState) : AgentState × String :=
  if s.is_search_retry_limit_reached then
    (s.add_log ("❌ 决策：已达重试上限(3次) → 进入错误处理"), "error")
  else
    let s := s.add_log ("🔄 决策：重试 " ++ toString s.search_retry_count ++ "/3 → 等待后重试")
    (s.increment_search_retry, "search")

/-- The `decide_after_filter` of decisions.py. -/
def decide_after_filter (s : AgentState) : AgentState × String :=
  if s.has_enough_filtered_results 3 then
    (s.add_log ("✅ 决策：筛选结果充足(" ++ toString s.filtered_results.length ++
      "条) → 进入总结"), "summarize")
  else
    (s.add_log ("⚠️  决策：筛选结果不足(" ++ toString s.filtered_results.length ++
      "条) → 检查扩大策略"), "expand")

/-- The `decide_expand` of decisions.py: expands the search once (guarded by
`search_expanded`), afterwards lowers the filter threshold — the
`filter_lowered` flag is never consulted. -/
def decide_expand (s : AgentState) : AgentState × String :=
  if !s.search_expanded then
    let s := s.add_log ("🔍 决策：未扩大过 → 扩大搜索范围")
    (s.expand_search, "search")
  else
    let s := s.add_log ("📉 决策：已扩大过 → 降低筛选标准")
    (s.lower_filter_threshold, "filter")

/-- The `decide_after_summarize` of decisions.py. -/
def decide_after_summarize (s : AgentState) : AgentState × String :=
  if s.is_quality_acceptable (mkRat 7 10) then
    (s.add_log ("✅ 决策：质量合格(" ++ fmt2 s.quality_score ++ ") → 进入格式化"), "format")
  else
    (s.add_log ("⚠️  决策：质量不合格(" ++ fmt2 s.quality_score ++ ") → 检查重新生成"), "regenerate")

/-- The `decide_regenerate` of decisions.py: below the limit it increments
the summary-retry counter as a side effect of selecting `summarize`. -/
def decide_regenerate (s : AgentState) : AgentState × String :=
  if s.is_summary_retry_limit_reached then
    (s.add_log ("⚠️  决策：已达重新生成上限(2次) → 使用当前版本"), "format")
  else
    let s := s.add_log ("🔄 决策：重新生成 " ++ toString s.summary_retry_count ++
      "/2 → 优化Prompt重试")
    (s.increment_summary_retry, "summarize")

/-- The `StateGraph._get_next_node`: primary guard, then (when it names a
secondary guard) the secondary guard. -/
def get_next_node (s : AgentState) (current_node : String) : AgentState × String :=
  if current_node == "search" then
    let r := decide_after_search s
    if r.2 == "retry" then decide_retry r.1 else r
  else if current_node == "filter" then
    let r := decide_after_filter s
    if r.2 == "expand" then decide_expand r.1 else r
  else if current_node == "summarize" then
    let r := decide_after_summarize s
    if r.2 == "regenerate" then decide_regenerate r.1 else r
  else if current_node == "format" then
    (s, "end")
  else if current_node == "error" then
    (s, "end")
  else
    (s, "end")

/-- Membership of a node name in the `StateGraph.nodes` registry. -/
def registeredNode (node : String) : Bool :=
  node == "search" || node == "filter" || node == "summarize" ||
  node == "format" || node == "error"

/-- Dispatch through the `StateGraph.nodes` registry (only called on
registered names by the driver loop). -/
def execNode (w : World) (node : String) (s : AgentState) : World × AgentState :=
  if node == "search" then search_node w s
  else if node == "filter" then filter_node w s
  else if node == "summarize" then summarize_node w s
  else if node == "format" then (w, format_node w.now s)
  else if node == "error" then (w, error_node w.now s)
  else (w, s)

/-- One iteration of the driver loop, as recorded in the run trace:
the executed node, the state right after the node function, the state
right after the guard(s), and the selected next node. -/
structure IterRecord where
  node : String
  afterNode : AgentState
  afterGuard : AgentState
  next : String
deriving DecidableEq, Repr

/-- Result of running the driver loop (and of a whole run). -/
structure RunResult where
  world : World
  state : AgentState
  stepCount : Nat
  trace : List IterRecord

/-- The `while current_node != "end" and step_count < max_steps` loop of
`StateGraph.run`, with `fuel = max_steps - step_count` as the structural
recursion measure (so that calling it with `fuel := max_steps` and
`step_count := 0` is exactly the source loop).  Besides the final state
it records the trace of iterations. -/
def runLoop (w : World) (s : AgentState) (node : String) (step_count : Nat) :
    Nat → RunResult
  | 0 => ⟨w, s, step_count, []⟩
  | fuel + 1 =>
    if node == "end" then ⟨w, s, step_count, []⟩
    else
      let step_count := step_count + 1
      let s := s.add_log ("\n--- 步骤 " ++ toString step_count ++
        ": 执行节点 [" ++ node ++ "] ---")
      if registeredNode node then
        match execNode w node s with
        | (w, s1) =>
          match get_next_node s1 node with
          | (s2, next) =>
            let r := runLoop w s2 next step_count fuel
            ⟨r.world, r.state, r.stepCount, ⟨node, s1, s2, next⟩ :: r.trace⟩
      else
        let s := s.add_log ("❌ 错误：未知节点 " ++ node)
        ⟨w, s, step_count, []⟩

/-- A line of 60 `=` characters (`"=" * 60`). -/
def eq60 : String :=
  String.mk (List.replicate 60 '=')

/-- The `StateGraph.run`: banner logs, the loop starting at `search` with a
ceiling of 50 steps, the ceiling warning, and the closing banner logs. -/
def StateGraph.run (w : World) (initial_state : AgentState) : RunResult :=
  let max_steps := 50
  let s := initial_state
  let s := s.add_log eq60
  let s := s.add_log ("🚀 State Graph 开始执行")
  let s := s.add_log eq60
  let r := runLoop w s ("search") 0 max_steps
  let s := if r.stepCount ≥ max_steps then
      r.state.add_log ("⚠️  警告：达到最大步骤数限制")
    else r.state
  let s := s.add_log ("\n" ++ eq60)
  let s := s.add_log ("🏁 State Graph 执行完成")
  let s := s.add_log eq60
  ⟨r.world, s, r.stepCount, r.trace⟩

/-- The `state_graph_agent(topic, max_results)` together with its run trace:
builds the initial state from the dataclass defaults and runs the
graph. -/
def agentRun (w : World) (topic : String) (max_results : Int) : RunResult :=
  StateGraph.run w (AgentState.init topic max_results)

/-- The entry point `state_graph_agent(topic, max_results)`: the final
state returned to the caller. -/
def state_graph_agent (w : World) (topic : String) (max_results : Int) : AgentState :=
  (agentRun w topic max_results).state

/-- The state handed to the first loop iteration (initial state plus the
three opening banner log entries). -/
def loopStart (topic : String) (max_results : Int) : AgentState :=
  (((AgentState.init topic max_results).add_log eq60).add_log
    ("🚀 State Graph 开始执行")).add_log eq60

/-- The loop part of a run, before the closing logs of
`StateGraph.run` are appended. -/
def loopResult (w : World) (topic : String) (max_results : Int) : RunResult :=
  runLoop w (loopStart topic max_results) "search" 0 50

/-- The states a trace passes through: for each iteration, the state
after the node function and the state after the guard(s). -/
def traceStates (tr : List IterRecord) : List AgentState :=
  tr.flatMap (fun r => [r.afterNode, r.afterGuard])

/-- The state sequence of a run as seen by the driver loop: the loop's
initial state followed by the per-iteration states. -/
def runStates (w : World) (topic : String) (max_results : Int) : List AgentState :=
  loopStart topic max_results :: traceStates (agentRun w topic max_results).trace

/-- The `b` keeps the retry counters and the expansion flag of `a`
unchanged (what every node function does). -/
def SameCounters (a b : AgentState) : Prop :=
  b.search_retry_count = a.search_retry_count ∧
  b.summary_retry_count = a.summary_retry_count ∧
  b.search_expanded = a.search_expanded

/-- The transition relation the run's state sequence is proved to
satisfy: both retry counters are non-decreasing and stay within their
bounds, and the expansion flag is never cleared. -/
def StepRel (a b : AgentState) : Prop :=
  a.search_retry_count ≤ b.search_retry_count ∧
  a.summary_retry_count ≤ b.summary_retry_count ∧
  (a.search_expanded = true → b.search_expanded = true) ∧
  (a.search_retry_count ≤ 3 → b.search_retry_count ≤ 3) ∧
  (a.summary_retry_count ≤ 2 → b.summary_retry_count ≤ 2)

/-- Number of `false → true` transitions between adjacent elements of a
boolean sequence. -/
def boolFlips : List Bool → Nat
  | [] => 0
  | [_] => 0
  | a :: b :: rest => (if a = false ∧ b = true then 1 else 0) + boolFlips (b :: rest)

/-- Spec-side length score of the summary quality heuristic. -/
def lengthScore (summary : String) : Rat :=
  if summary.length ≥ 300 then 5/10
  else if summary.length ≥ 200 then 3/10
  else if summary.length ≥ 100 then 1/10
  else 0

/-- Spec-side structure score of the summary quality heuristic
(non-empty paragraphs, in the program's sense of non-blank lines). -/
def structureScore (summary : String) : Rat :=
  let paragraphs := (pySplitChar summary '\n').filter (fun p => !(pyStrip p).data.isEmpty)
  if paragraphs.length ≥ 3 then 3/10
  else if paragraphs.length ≥ 2 then 2/10
  else 0

/-- Spec-side relevance score of the summary quality heuristic. -/
def relevanceScore (topic summary : String) : Rat :=
  if strContains summary topic then 2/10 else 0

/-- Number of adjacent unequal pairs in a sequence of rationals: how
often the value changed along the sequence. -/
def adjChanges : List Rat → Nat
  | [] => 0
  | [_] => 0
  | a :: b :: rest => (if a ≠ b then 1 else 0) + adjChanges (b :: rest)

/-- Sample items for concrete runs. -/
def itemOne : Item := ⟨"标题一", "urlOne", "内容一"⟩

def itemTwo : Item := ⟨"标题二", "urlTwo", "内容二"⟩

def itemThree : Item := ⟨"标题三", "urlThree", "内容三"⟩

def itemFour : Item := ⟨"标题四", "urlFour", "内容四"⟩

def itemFive : Item := ⟨"标题五", "urlFive", "内容五"⟩

/-- A world whose search always returns the empty list and whose LLM
always answers the empty string. -/
def wEmpty : World :=
  ⟨fun _ _ _ => CallResult.ok [], fun _ _ _ _ => CallResult.ok (""), 0, 0, "T"⟩

/-- A world driving a run through one expansion and two threshold
relaxations: search always finds three items; the LLM judges nothing
relevant three times, then everything relevant, then returns empty
summaries. -/
def wTwo : World :=
  ⟨fun _ _ _ => CallResult.ok [itemOne, itemTwo, itemThree],
   fun i _ _ _ => if i < 3 then CallResult.ok ("无")
     else if i == 3 then CallResult.ok ("全部") else CallResult.ok (""),
   0, 0, "T"⟩

/-- A world whose filter LLM never judges anything relevant: the run
relaxes the threshold forever and hits the 50-step ceiling. -/
def wLoop : World :=
  ⟨fun _ _ _ => CallResult.ok [itemOne, itemTwo, itemThree],
   fun _ _ _ _ => CallResult.ok ("无"), 0, 0, "T"⟩

/-- A state holding two search results, ready for the filter step. -/
def sC5 : AgentState :=
  { AgentState.init ("主题") 5 with
    search_results := [itemOne, itemTwo], search_status := "success" }

/-- A world whose filter LLM answers with the duplicated, reordered
index list `2, 2, 1`. -/
def wC5 : World :=
  ⟨fun _ _ _ => CallResult.failure, fun _ _ _ _ => CallResult.ok ("2, 2, 1"), 0, 0, "T"⟩

/-- A world whose second search overwrites the first results: search 0
returns two items, later searches three fresh ones; the filter LLM
first answers `2, 1`, then `全部`, then empty summaries. -/
def wStale : World :=
  ⟨fun i _ _ => if i == 0 then CallResult.ok [itemOne, itemTwo]
     else CallResult.ok [itemThree, itemFour, itemFive],
   fun i _ _ _ => if i == 0 then CallResult.ok ("2, 1")
     else if i == 1 then CallResult.ok ("全部") else CallResult.ok (""),
   0, 0, "T"⟩

/-- A world whose LLM call fails (returns `None`). -/
def wFail : World :=
  ⟨fun _ _ _ => CallResult.ok [], fun _ _ _ _ => CallResult.failure, 0, 0, "T"⟩

/-- A state holding one search result, ready for the filter step. -/
def sOne : AgentState :=
  { AgentState.init ("主题") 5 with
    search_results := [itemOne], search_status := "success" }

/-- A state holding one filtered result, ready for the summarize step. -/
def sSum : AgentState :=
  { AgentState.init ("主题") 5 with
    search_results := [itemOne], search_status := "success",
    filtered_results := [itemOne] }

/-- A world whose LLM answers a short two-line summary mentioning the
topic `主题`. -/
def wSum : World :=
  ⟨fun _ _ _ => CallResult.ok [itemOne], fun _ _ _ _ => CallResult.ok ("主题总结\n第二段"), 0, 0, "T"⟩

/-- The `ratMul` computes rational multiplication. -/
theorem ratMul_eq_mul (a b : Rat) : ratMul a b = a * b :=
  (Rat.mul_eq_mkRat a b).symm

/-- The `ratAdd` computes rational addition. -/
theorem ratAdd_eq_add (a b : Rat) : ratAdd a b = a + b :=
  (Rat.add_def' a b).symm

/-- The `pyMin` computes the binary minimum. -/
theorem pyMin_eq_min (a b : Rat) : pyMin a b = min a b :=
  (min_def a b).symm

theorem stepRel_refl (a : AgentState) : StepRel a a :=
  ⟨le_refl _, le_refl _, fun h => h, fun h => h, fun h => h⟩

theorem stepRel_trans {a b c : AgentState} (h1 : StepRel a b) (h2 : StepRel b c) :
    StepRel a c :=
  ⟨le_trans h1.1 h2.1, le_trans h1.2.1 h2.2.1, fun h => h2.2.2.1 (h1.2.2.1 h),
   fun h => h2.2.2.2.1 (h1.2.2.2.1 h), fun h => h2.2.2.2.2 (h1.2.2.2.2 h)⟩

theorem sameCounters_stepRel {a b : AgentState} (h : SameCounters a b) : StepRel a b := by
  obtain ⟨h1, h2, h3⟩ := h
  exact ⟨by omega, by omega, fun hx => by rw [h3]; exact hx, by omega, by omega⟩

theorem add_log_sameCounters (s : AgentState) (m : String) :
    SameCounters s (s.add_log m) := by
  exact ⟨rfl, rfl, rfl⟩

theorem search_node_sameCounters (w : World) (s : AgentState) :
    SameCounters s (search_node w s).2 := by
  simp only [search_node, World.search_web, SameCounters, AgentState.add_log, AgentState.set_error]
  split_ifs <;>
    cases w.searchResponses w.searchIdx s.topic s.max_results <;>
      simp <;> split_ifs <;> simp

theorem filter_node_sameCounters (w : World) (s : AgentState) :
    SameCounters s (filter_node w s).2 := by
  simp only [filter_node, World.call_llm, SameCounters, AgentState.add_log]
  split_ifs with h
  · simp
  · cases w.llmResponses w.llmIdx
      (filterPrompt s.topic (resultsText s.search_results)) (mkRat 3 10) 200 <;> simp

theorem summarize_node_sameCounters (w : World) (s : AgentState) :
    SameCounters s (summarize_node w s).2 := by
  simp only [summarize_node, World.call_llm, SameCounters, AgentState.add_log]
  split_ifs with h
  · simp
  · cases w.llmResponses w.llmIdx
      (summarizePrompt s.summary_retry_count s.topic (contentText s.filtered_results))
      (mkRat 7 10) 1500 <;> simp

theorem format_node_sameCounters (now : String) (s : AgentState) :
    SameCounters s (format_node now s) := by
  simp [format_node, SameCounters, AgentState.add_log]

theorem error_node_sameCounters (now : String) (s : AgentState) :
    SameCounters s (error_node now s) := by
  simp [error_node, SameCounters, AgentState.add_log]

theorem execNode_sameCounters (w : World) (node : String) (s : AgentState) :
    SameCounters s (execNode w node s).2 := by
  unfold execNode
  split_ifs
  · exact search_node_sameCounters w s
  · exact filter_node_sameCounters w s
  · exact summarize_node_sameCounters w s
  · exact format_node_sameCounters w.now s
  · exact error_node_sameCounters w.now s
  · exact ⟨rfl, rfl, rfl⟩

theorem decide_after_search_stepRel (s : AgentState) :
    StepRel s (decide_after_search s).1 := by
  unfold decide_after_search
  split_ifs <;> exact sameCounters_stepRel (add_log_sameCounters s _)

theorem decide_retry_stepRel (s : AgentState) :
    StepRel s (decide_retry s).1 := by
  unfold decide_retry
  split_ifs with h
  · exact sameCounters_stepRel (add_log_sameCounters s _)
  · simp only [AgentState.is_search_retry_limit_reached, decide_eq_true_eq, not_le] at h
    refine ⟨?_, ?_, ?_, ?_, ?_⟩ <;>
      simp [AgentState.increment_search_retry, AgentState.add_log] <;> omega

theorem decide_after_filter_stepRel (s : AgentState) :
    StepRel s (decide_after_filter s).1 := by
  unfold decide_after_filter
  split_ifs <;> exact sameCounters_stepRel (add_log_sameCounters s _)

theorem decide_expand_stepRel (s : AgentState) :
    StepRel s (decide_expand s).1 := by
  unfold decide_expand
  split_ifs <;>
    refine ⟨?_, ?_, ?_, ?_, ?_⟩ <;>
      simp [AgentState.expand_search, AgentState.lower_filter_threshold, AgentState.add_log]

theorem decide_after_summarize_stepRel (s : AgentState) :
    StepRel s (decide_after_summarize s).1 := by
  unfold decide_after_summarize
  split_ifs <;> exact sameCounters_stepRel (add_log_sameCounters s _)

theorem decide_regenerate_stepRel (s : AgentState) :
    StepRel s (decide_regenerate s).1 := by
  unfold decide_regenerate
  split_ifs with h
  · exact sameCounters_stepRel (add_log_sameCounters s _)
  · simp only [AgentState.is_summary_retry_limit_reached, decide_eq_true_eq, not_le] at h
    refine ⟨?_, ?_, ?_, ?_, ?_⟩ <;>
      simp [AgentState.increment_summary_retry, AgentState.add_log] <;> omega

theorem get_next_node_stepRel (s : AgentState) (node : String) :
    StepRel s (get_next_node s node).1 := by
  unfold get_next_node
  dsimp only
  split_ifs
  · exact stepRel_trans (decide_after_search_stepRel s)
      (decide_retry_stepRel (decide_after_search s).1)
  · exact decide_after_search_stepRel s
  · exact stepRel_trans (decide_after_filter_stepRel s)
      (decide_expand_stepRel (decide_after_filter s).1)
  · exact decide_after_filter_stepRel s
  · exact stepRel_trans (decide_after_summarize_stepRel s)
      (decide_regenerate_stepRel (decide_after_summarize s).1)
  · exact decide_after_summarize_stepRel s
  · exact stepRel_refl s
  · exact stepRel_refl s
  · exact stepRel_refl s

theorem traceStates_cons (r : IterRecord) (tr : List IterRecord) :
    traceStates (r :: tr) = r.afterNode :: r.afterGuard :: traceStates tr := by
  simp [traceStates]

/-- Master lemma: along the driver loop, the loop's entry state is
related by `StepRel` to every recorded state and to the final state, and
consecutive recorded states are chained by `StepRel`. -/
theorem runLoop_stepRel (fuel : Nat) :
    ∀ (w : World) (s : AgentState) (node : String) (sc : Nat),
      List.Chain' StepRel (s :: traceStates (runLoop w s node sc fuel).trace) ∧
      StepRel s (runLoop w s node sc fuel).state := by
  induction fuel with
  | zero =>
    intro w s node sc
    exact ⟨List.chain'_singleton s, stepRel_refl s⟩
  | succ fuel ih =>
    intro w s node sc
    by_cases hend : (node == "end") = true
    · simp only [runLoop, hend, if_true]
      exact ⟨List.chain'_singleton s, stepRel_refl s⟩
    · by_cases hreg : registeredNode node = true
      · have hstep :
            runLoop w s node sc (fuel + 1) =
              (let s0 := s.add_log ("\n--- 步骤 " ++ toString (sc + 1) ++
                ": 执行节点 [" ++ node ++ "] ---")
              let p := execNode w node s0
              let g := get_next_node p.2 node
              let r := runLoop p.1 g.1 g.2 (sc + 1) fuel
              ⟨r.world, r.state, r.stepCount, ⟨node, p.2, g.1, g.2⟩ :: r.trace⟩) := by
          simp only [runLoop, hend, hreg, if_false, if_true, Bool.false_eq_true]
        rw [hstep]
        dsimp only
        set s0 := s.add_log ("\n--- 步骤 " ++ toString (sc + 1) ++
          ": 执行节点 [" ++ node ++ "] ---") with hs0
        set p := execNode w node s0 with hp
        set g := get_next_node p.2 node with hg
        have h1 : StepRel s p.2 :=
          stepRel_trans (sameCounters_stepRel (add_log_sameCounters s _))
            (sameCounters_stepRel (execNode_sameCounters w node s0))
        have h2 : StepRel p.2 g.1 := get_next_node_stepRel p.2 node
        obtain ⟨hchain, hfin⟩ := ih p.1 g.1 g.2 (sc + 1)
        constructor
        · rw [traceStates_cons]
          exact List.chain'_cons.mpr ⟨h1, List.chain'_cons.mpr ⟨h2, hchain⟩⟩
        · exact stepRel_trans h1 (stepRel_trans h2 hfin)
      · have hstep :
            runLoop w s node sc (fuel + 1) =
              ⟨w, (s.add_log ("\n--- 步骤 " ++ toString (sc + 1) ++
                  ": 执行节点 [" ++ node ++ "] ---")).add_log
                  ("❌ 错误：未知节点 " ++ node), sc + 1, []⟩ := by
          simp only [runLoop, hend, hreg, if_false, if_true, Bool.false_eq_true]
        rw [hstep]
        refine ⟨List.chain'_singleton s, ?_⟩
        exact stepRel_trans (sameCounters_stepRel (add_log_sameCounters s _))
          (sameCounters_stepRel (add_log_sameCounters _ _))

/-- From a `StepRel` chain, the head is related to every later element. -/
theorem chain'_stepRel_tail :
    ∀ (l : List AgentState) (a : AgentState),
      List.Chain' StepRel (a :: l) → ∀ x ∈ l, StepRel a x := by
  intro l
  induction l with
  | nil => intro a _ x hx; cases hx
  | cons b t ih =>
    intro a h x hx
    have hab : StepRel a b := (List.chain'_cons.mp h).1
    have ht : List.Chain' StepRel (b :: t) := (List.chain'_cons.mp h).2
    rcases List.mem_cons.mp hx with rfl | hx'
    · exact hab
    · exact stepRel_trans hab (ih b ht x hx')

theorem boolFlips_zero_of_true :
    ∀ (l : List Bool), List.Chain' (fun a b => a = true → b = true) (true :: l) →
      boolFlips (true :: l) = 0 := by
  intro l
  induction l with
  | nil => intro _; rfl
  | cons b t ih =>
    intro h
    have hb : b = true := (List.chain'_cons.mp h).1 rfl
    have ht := (List.chain'_cons.mp h).2
    subst hb
    have := ih ht
    simp [boolFlips] at this ⊢
    exact this


theorem boolFlips_le_one :
    ∀ (l : List Bool), List.Chain' (fun a b => a = true → b = true) l →
      boolFlips l ≤ 1 := by
  intro l
  induction l with
  | nil => intro _; simp [boolFlips]
  | cons a t ih =>
    intro h
    cases t with
    | nil => simp [boolFlips]
    | cons b t2 =>
      cases a with
      | true => rw [boolFlips_zero_of_true _ h]; omega
      | false =>
        have ht := (List.chain'_cons.mp h).2
        cases b with
        | true =>
          have := boolFlips_zero_of_true _ ht
          simp [boolFlips, this]
        | false =>
          have := ih ht
          simp [boolFlips] at this ⊢
          exact this

/-- The loop executes at most `fuel` further iterations. -/
theorem runLoop_stepCount_le (fuel : Nat) :
    ∀ (w : World) (s : AgentState) (node : String) (sc : Nat),
      (runLoop w s node sc fuel).stepCount ≤ sc + fuel := by
  induction fuel with
  | zero => intro w s node sc; simp [runLoop]
  | succ fuel ih =>
    intro w s node sc
    by_cases hend : (node == "end") = true
    · simp only [runLoop, hend, if_true]
      omega
    · by_cases hreg : registeredNode node = true
      · have hstep :
            runLoop w s node sc (fuel + 1) =
              (let s0 := s.add_log ("\n--- 步骤 " ++ toString (sc + 1) ++
                ": 执行节点 [" ++ node ++ "] ---")
              let p := execNode w node s0
              let g := get_next_node p.2 node
              let r := runLoop p.1 g.1 g.2 (sc + 1) fuel
              ⟨r.world, r.state, r.stepCount, ⟨node, p.2, g.1, g.2⟩ :: r.trace⟩) := by
          simp only [runLoop, hend, hreg, if_false, if_true, Bool.false_eq_true]
        rw [hstep]
        dsimp only
        have := ih (execNode w node (s.add_log ("\n--- 步骤 " ++ toString (sc + 1) ++
          ": 执行节点 [" ++ node ++ "] ---"))).1
          (get_next_node (execNode w node (s.add_log ("\n--- 步骤 " ++ toString (sc + 1) ++
            ": 执行节点 [" ++ node ++ "] ---"))).2 node).1
          (get_next_node (execNode w node (s.add_log ("\n--- 步骤 " ++ toString (sc + 1) ++
            ": 执行节点 [" ++ node ++ "] ---"))).2 node).2 (sc + 1)
        omega
      · have hstep :
            runLoop w s node sc (fuel + 1) =
              ⟨w, (s.add_log ("\n--- 步骤 " ++ toString (sc + 1) ++
                  ": 执行节点 [" ++ node ++ "] ---")).add_log
                  ("❌ 错误：未知节点 " ++ node), sc + 1, []⟩ := by
          simp only [runLoop, hend, hreg, if_false, if_true, Bool.false_eq_true]
        rw [hstep]
        dsimp only
        omega

/-- One-step unfolding of the driver loop (definitional). -/
theorem runLoop_succ (w : World) (s : AgentState) (node : String) (sc fuel : Nat) :
    runLoop w s node sc (fuel + 1) =
      (if node == "end" then ⟨w, s, sc, []⟩
       else
         let s0 := s.add_log ("\n--- 步骤 " ++ toString (sc + 1) ++
           ": 执行节点 [" ++ node ++ "] ---")
         if registeredNode node then
           let p := execNode w node s0
           let g := get_next_node p.2 node
           let r := runLoop p.1 g.1 g.2 (sc + 1) fuel
           ⟨r.world, r.state, r.stepCount, ⟨node, p.2, g.1, g.2⟩ :: r.trace⟩
         else ⟨w, s0.add_log ("❌ 错误：未知节点 " ++ node), sc + 1, []⟩) := by
  rfl

/-- C9: the `format` and `error` (degrade) states are absorbing: for
every Run Context, the next-node selection from each of them returns the
terminal `end` and leaves the state untouched. -/
theorem c9_format_error_absorbing (s : AgentState) :
    get_next_node s ("format") = (s, "end") ∧ get_next_node s ("error") = (s, "end") := by
  constructor <;> rfl

/-- C1 counterexample: the entry point performs no input validation.
With the empty topic and `max_results = 0` — inputs the claim says fail
fast with no step executed — the run still executes five steps (four
searches and the degrade step). -/
theorem c1_counterexample :
    (agentRun wEmpty ("") 0).trace.map (fun r => r.node) =
      ["search", "search", "search", "search", "error"] ∧
    (agentRun wEmpty ("") 0).trace ≠ [] := by
  constructor
  · decide
  · decide

/-- C1 amended: the entry point validates nothing: for every input,
valid or not, the driver loop starts by executing the `search` step,
and the terminal Run Context of the graph run is returned to the
caller. -/
theorem c1_no_validation (w : World) (topic : String) (max_results : Int) :
    (agentRun w topic max_results).trace.head?.map (fun r => r.node) = some ("search") ∧
    state_graph_agent w topic max_results = (agentRun w topic max_results).state := by
  constructor
  · show ((runLoop w (loopStart topic max_results) "search" 0 50).trace.head?.map
      (fun r => r.node)) = some ("search")
    rw [show (50 : Nat) = 49 + 1 from rfl, runLoop_succ]
    simp [registeredNode]
  · rfl

/-- C10: the filter step's output does not depend on `filter_threshold`:
for two Run Contexts identical except for the threshold, the same LLM
response produces identical `filtered_results` (the threshold is only
rendered into a log line). -/
theorem c10_threshold_noninterference (w : World) (s : AgentState) (t : Rat) :
    (filter_node w { s with filter_threshold := t }).2.filtered_results =
      (filter_node w s).2.filtered_results := by
  simp only [filter_node, World.call_llm, AgentState.add_log]
  split_ifs
  · rfl
  · cases w.llmResponses w.llmIdx
      (filterPrompt s.topic (resultsText s.search_results)) (mkRat 3 10) 200 <;> simp

/-- C8: the filter step fails open: whenever the LLM call returns `None`
or raises, `filtered_results` is set to the full `search_results`; and a
filter failure is never escalated — the successor of the `filter` state
is always `summarize`, `search` or `filter`, never the degrade state. -/
theorem c8_filter_fail_open :
    (∀ (w : World) (s : AgentState),
      s.search_results ≠ [] →
      (w.llmResponses w.llmIdx (filterPrompt s.topic (resultsText s.search_results))
          (mkRat 3 10) 200 = CallResult.failure ∨
        ∃ m, w.llmResponses w.llmIdx (filterPrompt s.topic (resultsText s.search_results))
          (mkRat 3 10) 200 = CallResult.raised m) →
      (filter_node w s).2.filtered_results = s.search_results) ∧
    (∀ s : AgentState,
      (get_next_node s ("filter")).2 = "summarize" ∨
      (get_next_node s ("filter")).2 = "search" ∨
      (get_next_node s ("filter")).2 = "filter") := by
  constructor
  · intro w s hne hfail
    have hlen : (s.search_results.length == 0) = false := by
      simp [List.length_eq_zero]
      exact hne
    simp only [filter_node, World.call_llm, AgentState.add_log, hlen, Bool.false_eq_true,
      if_false]
    rcases hfail with hf | ⟨m, hf⟩ <;> rw [hf]
  · intro s
    unfold get_next_node decide_after_filter decide_expand
    dsimp only
    split_ifs <;> simp_all

/-- C8 witness: with a failing LLM and one search result, the filter
step keeps the full result list, and the filter successor at a concrete
context is never the degrade state. -/
theorem c8_witness :
    (sOne.search_results ≠ [] ∧
      (filter_node wFail sOne).2.filtered_results = sOne.search_results) ∧
    ((get_next_node (AgentState.init ("a") 1) "filter").2 = "summarize" ∨
      (get_next_node (AgentState.init ("a") 1) "filter").2 = "search" ∨
      (get_next_node (AgentState.init ("a") 1) "filter").2 = "filter") :=
  ⟨⟨by decide, c8_filter_fail_open.1 wFail sOne (by decide) (Or.inl rfl)⟩,
    c8_filter_fail_open.2 (AgentState.init ("a") 1)⟩

/-- C7: along every run's state sequence the two retry counters are
monotonically non-decreasing, and in every reachable state of the driver
loop `search_retry_count ≤ 3` and `summary_retry_count ≤ 2`. -/
theorem c7_retry_counters (w : World) (topic : String) (max_results : Int) :
    List.Chain' (fun a b =>
        a.search_retry_count ≤ b.search_retry_count ∧
        a.summary_retry_count ≤ b.summary_retry_count)
      (runStates w topic max_results) ∧
    ∀ x ∈ runStates w topic max_results,
      x.search_retry_count ≤ 3 ∧ x.summary_retry_count ≤ 2 := by
  have hmaster := runLoop_stepRel 50 w (loopStart topic max_results) "search" 0
  have hchain : List.Chain' StepRel (runStates w topic max_results) := hmaster.1
  constructor
  · exact hchain.imp (fun a b hab => ⟨hab.1, hab.2.1⟩)
  · intro x hx
    have h1 : (loopStart topic max_results).search_retry_count = 0 := rfl
    have h2 : (loopStart topic max_results).summary_retry_count = 0 := rfl
    rcases List.mem_cons.mp hx with rfl | hx'
    · omega
    · have hrel : StepRel (loopStart topic max_results) x :=
        chain'_stepRel_tail _ _ hchain x hx'
      exact ⟨hrel.2.2.2.1 (by omega), hrel.2.2.2.2 (by omega)⟩

/-- C7 witness: the loop-start state of a concrete run is a reachable
state and satisfies both counter bounds. -/
theorem c7_witness :
    loopStart ("a") 1 ∈ runStates wEmpty ("a") 1 ∧
    (loopStart ("a") 1).search_retry_count ≤ 3 ∧
    (loopStart ("a") 1).summary_retry_count ≤ 2 :=
  ⟨List.mem_cons_self _ _,
    (c7_retry_counters wEmpty ("a") 1).2 (loopStart ("a") 1) (List.mem_cons_self _ _)⟩

/-- C2 counterexample: threshold relaxation is not once-guarded.  In the
`wTwo` run the filter threshold changes at two distinct transitions of
the same run and ends at `0.7 * 0.8 * 0.8 = 0.448` — impossible if
`lower_filter_threshold` (the only mutation of the threshold) ran at
most once, which would leave it at `0.7` or `0.56`. -/
theorem c2_counterexample :
    adjChanges ((runStates wTwo ("话题") 3).map (fun x => x.filter_threshold)) = 2 ∧
    (state_graph_agent wTwo ("话题") 3).filter_threshold = mkRat 56 125 ∧
    mkRat 56 125 ≠ mkRat 7 10 ∧
    mkRat 56 125 ≠ ratMul (mkRat 7 10) (mkRat 8 10) := by
  refine ⟨by decide, by decide, by decide, by decide⟩

/-- C2 amended: search expansion is once-guarded — along every run the
`search_expanded` flag flips from `false` to `true` at most once, so
`expand_search` (the only mutation of that flag, and only reachable
while it is `false`) runs at most once per run; threshold relaxation
carries no such guard and can repeat (see the counterexample). -/
theorem c2_expand_at_most_once (w : World) (topic : String) (max_results : Int) :
    boolFlips ((runStates w topic max_results).map (fun x => x.search_expanded)) ≤ 1 := by
  have hchain : List.Chain' StepRel (runStates w topic max_results) :=
    (runLoop_stepRel 50 w (loopStart topic max_results) "search" 0).1
  have hflag : List.Chain' (fun a b : AgentState =>
      a.search_expanded = true → b.search_expanded = true)
      (runStates w topic max_results) :=
    hchain.imp (fun a b hab => hab.2.2.1)
  have hmap : List.Chain' (fun a b : Bool => a = true → b = true)
      ((runStates w topic max_results).map (fun x => x.search_expanded)) := by
    rw [List.chain'_map]
    exact hflag
  exact boolFlips_le_one _ hmap

/-- C3: every run executes at most 50 loop iterations; when the ceiling
of 50 is reached the loop stops, the warning is logged, and the context
is returned as-is — the returned state is exactly the loop-exit state
with the warning and the closing banner appended to the log (in
particular `final_report` is whatever the loop left, possibly empty). -/
theorem c3_step_ceiling (w : World) (topic : String) (max_results : Int) :
    (agentRun w topic max_results).stepCount ≤ 50 ∧
    ((agentRun w topic max_results).stepCount = 50 →
      (agentRun w topic max_results).state =
        ((((loopResult w topic max_results).state.add_log
            ("⚠️  警告：达到最大步骤数限制")).add_log
          ("\n" ++ eq60)).add_log ("🏁 State Graph 执行完成")).add_log eq60) := by
  constructor
  · have h := runLoop_stepCount_le 50 w (loopStart topic max_results) "search" 0
    simpa using h
  · intro h50
    have hge : (loopResult w topic max_results).stepCount ≥ 50 := le_of_eq h50.symm
    show (StateGraph.run w (AgentState.init topic max_results)).state = _
    unfold StateGraph.run
    dsimp only
    have hge' : (runLoop w
        ((((AgentState.init topic max_results).add_log eq60).add_log
          ("🚀 State Graph 开始执行")).add_log eq60) "search" 0 50).stepCount ≥ 50 := hge
    rw [if_pos hge']
    rfl

/-- C3 witness: the `wLoop` run hits the 50-iteration ceiling and is
returned as-is with the warning logged. -/
theorem c3_witness :
    (agentRun wLoop ("话题") 3).stepCount = 50 ∧
    (agentRun wLoop ("话题") 3).state =
      ((((loopResult wLoop ("话题") 3).state.add_log
          ("⚠️  警告：达到最大步骤数限制")).add_log
        ("\n" ++ eq60)).add_log ("🏁 State Graph 执行完成")).add_log eq60 :=
  ⟨by decide, (c3_step_ceiling wLoop ("话题") 3).2 (by decide)⟩

/-- The filter step never changes `search_results`. -/
theorem filter_node_search_results (w : World) (s : AgentState) :
    (filter_node w s).2.search_results = s.search_results := by
  simp only [filter_node, World.call_llm, AgentState.add_log]
  split_ifs
  · rfl
  · cases w.llmResponses w.llmIdx
      (filterPrompt s.topic (resultsText s.search_results)) (mkRat 3 10) 200 <;> simp

/-- The source's index pipeline — keep runs `≤ len`, subtract one as an
integer, then guard `0 ≤ i < len` — selects exactly the runs `n` with
`1 ≤ n ≤ len`, mapped to the `(n-1)`-th item. -/
theorem indices_filterMap_eq (L : List Nat) (items : List Item) :
    ((L.filter (fun n => decide (n ≤ items.length))).map
        (fun n => Int.ofNat n - 1)).filterMap
      (fun i => if 0 ≤ i ∧ i < Int.ofNat items.length then items.get? i.toNat else none) =
    L.filterMap (fun n =>
      if 1 ≤ n ∧ n ≤ items.length then items.get? (n - 1) else none) := by
  rw [List.filterMap_map, List.filterMap_filter]
  congr 1
  funext n
  simp only [Function.comp_apply]
  by_cases hle : n ≤ items.length
  · simp only [hle, decide_eq_true_eq, if_true]
    rcases Nat.eq_zero_or_pos n with rfl | hpos
    · norm_num
    · have ht : (Int.ofNat n - 1).toNat = n - 1 := by
        simp only [Int.ofNat_eq_coe]
        omega
      have hc1 : 0 ≤ Int.ofNat n - 1 ∧ Int.ofNat n - 1 < Int.ofNat items.length := by
        constructor <;> (simp only [Int.ofNat_eq_coe]; omega)
      rw [if_pos hc1, ht, if_pos ⟨hpos, trivial⟩]
  · have hc2 : ¬ (1 ≤ n ∧ n ≤ items.length) := fun h => hle h.2
    simp [hle, hc2]

/-- C5 counterexample: `filtered_results` need not be a subsequence of
`search_results`.  The LLM answer `2, 2, 1` makes the filter step select
`[two, two, one]` from `[one, two]` — an item is selected twice, in
reversed order, so it is no sublist; and in the `wStale` run, after the
expansion re-runs the search, the state still holds the old
`filtered_results` whose items no longer occur in the fresh
`search_results` at all. -/
theorem c5_counterexample :
    ((filter_node wC5 sC5).2.filtered_results = [itemTwo, itemTwo, itemOne] ∧
      (filter_node wC5 sC5).2.search_results = [itemOne, itemTwo] ∧
      ¬ List.Sublist [itemTwo, itemTwo, itemOne] [itemOne, itemTwo]) ∧
    (((agentRun wStale ("主题") 2).trace.get? 2).map
        (fun r => (r.afterNode.filtered_results, r.afterNode.search_results)) =
      some ([itemTwo, itemOne], [itemThree, itemFour, itemFive]) ∧
      itemTwo ∉ [itemThree, itemFour, itemFive]) := by
  refine ⟨⟨by decide, by decide, ?_⟩, by decide, by decide⟩
  intro h
  have := h.length_le
  simp at this

/-- C5 amended: immediately after a filter step, every item of
`filtered_results` is an element of `search_results`; and the
index-parsing branch keeps, in response order and without
deduplication, one entry for each integer substring `n` with
`1 ≤ n ≤ len(search_results)` (values outside that range are dropped),
namely the `(n-1)`-th search result.  Duplicates and reorderings are
possible, and a later search may overwrite `search_results` while the
old `filtered_results` stays. -/
theorem c5_amended :
    (∀ (w : World) (s : AgentState) (x : Item),
        x ∈ (filter_node w s).2.filtered_results →
        x ∈ (filter_node w s).2.search_results) ∧
    (∀ (w : World) (s : AgentState) (r : String),
        s.search_results ≠ [] →
        w.llmResponses w.llmIdx (filterPrompt s.topic (resultsText s.search_results))
          (mkRat 3 10) 200 = CallResult.ok r →
        strContains r ("全部") = false →
        strContains r ("无") = false →
        (filter_node w s).2.filtered_results =
          (digitRuns r.data).filterMap (fun n =>
            if 1 ≤ n ∧ n ≤ s.search_results.length then s.search_results.get? (n - 1)
            else none)) := by
  constructor
  · intro w s x hx
    rw [filter_node_search_results]
    revert hx
    simp only [filter_node, World.call_llm, AgentState.add_log]
    split_ifs with h
    · intro hx
      simp at hx
    · cases hres : w.llmResponses w.llmIdx
        (filterPrompt s.topic (resultsText s.search_results)) (mkRat 3 10) 200 with
      | ok llmr =>
        simp only []
        intro hx
        simp only [List.mem_filterMap] at hx
        obtain ⟨i, _, hif⟩ := hx
        by_cases hc : 0 ≤ i ∧ i < Int.ofNat s.search_results.length
        · rw [if_pos hc] at hif
          exact List.get?_mem hif
        · rw [if_neg hc] at hif
          cases hif
      | failure =>
        intro hx
        simpa using hx
      | raised m =>
        intro hx
        simpa using hx
  · intro w s r hne hok hall hnone
    have hlen : (s.search_results.length == 0) = false := by
      simp [List.length_eq_zero]
      exact hne
    simp only [filter_node, World.call_llm, AgentState.add_log, hlen, Bool.false_eq_true,
      if_false, hok, hall, hnone]
    exact indices_filterMap_eq (digitRuns r.data) s.search_results

/-- C5 witness for the amended claim: a concrete fail-open filter step
whose kept item is among the search results, and the concrete
index-branch run `2, 2, 1` matching the spec-side selection. -/
theorem c5_witness :
    (itemOne ∈ (filter_node wFail sOne).2.filtered_results ∧
      itemOne ∈ (filter_node wFail sOne).2.search_results) ∧
    (filter_node wC5 sC5).2.filtered_results =
      (digitRuns ("2, 2, 1" : String).data).filterMap (fun n =>
        if 1 ≤ n ∧ n ≤ sC5.search_results.length then sC5.search_results.get? (n - 1)
        else none) :=
  ⟨⟨by decide, c5_amended.1 wFail sOne itemOne (by decide)⟩,
    c5_amended.2 wC5 sC5 ("2, 2, 1") (by decide) rfl (by decide) (by decide)⟩

/-- C6: on every successful summarize step, the stored summary is the
stripped LLM text and `quality_score` is the sum of the three
independent partial scores — length, structure, relevance — capped at
1.0. -/
theorem c6_quality_score (w : World) (s : AgentState) (text : String)
    (hne : s.filtered_results ≠ [])
    (hok : w.llmResponses w.llmIdx (summarizePrompt s.summary_retry_count s.topic
      (contentText s.filtered_results)) (mkRat 7 10) 1500 = CallResult.ok text) :
    (summarize_node w s).2.summary = pyStrip text ∧
    (summarize_node w s).2.quality_score =
      min (lengthScore (pyStrip text) + structureScore (pyStrip text) +
        relevanceScore s.topic (pyStrip text)) 1 := by
  have hlen : (s.filtered_results.length == 0) = false := by
    simp [List.length_eq_zero]
    exact hne
  simp only [summarize_node, World.call_llm, AgentState.add_log, hlen, Bool.false_eq_true,
    if_false, hok]
  refine ⟨trivial, ?_⟩
  rw [pyMin_eq_min]
  congr 1
  simp only [ratAdd_eq_add, Rat.mkRat_eq_div, lengthScore, structureScore, relevanceScore]
  split_ifs <;> norm_num

/-- C6 witness: a concrete successful summarize step — two short lines
containing the topic — scoring `0 + 0.2 + 0.2` capped at 1. -/
theorem c6_witness :
    (sSum.filtered_results ≠ [] ∧
      wSum.llmResponses wSum.llmIdx (summarizePrompt sSum.summary_retry_count sSum.topic
        (contentText sSum.filtered_results)) (mkRat 7 10) 1500 =
        CallResult.ok ("主题总结\n第二段")) ∧
    (summarize_node wSum sSum).2.summary = pyStrip ("主题总结\n第二段") ∧
    (summarize_node wSum sSum).2.quality_score =
      min (lengthScore (pyStrip ("主题总结\n第二段")) +
        structureScore (pyStrip ("主题总结\n第二段")) +
        relevanceScore sSum.topic (pyStrip ("主题总结\n第二段"))) 1 :=
  ⟨⟨by decide, rfl⟩, c6_quality_score wSum sSum ("主题总结\n第二段") (by decide) rfl⟩

/-- C4 counterexample: with always-empty search results, the guard after
the 3rd failed search attempt routes back to `search` (a 4th attempt),
not to the degrade step: the per-iteration guard results are
`search, search, search, error, end`, so `error` is only selected after
the 4th failed attempt. -/
theorem c4_counterexample :
    (agentRun wEmpty ("X") 5).trace.map (fun r => r.next) =
      ["search", "search", "search", "error", "end"] ∧
    ((agentRun wEmpty ("X") 5).trace.map (fun r => r.next)).get? 2 = some ("search") := by
  refine ⟨by decide, by decide⟩

/-- C4 amended: when every search call returns an empty result list, the
run executes four search attempts (the initial one plus three retries),
then the degrade step; the terminal context stores the error
`搜索返回空结果`, and `final_report` contains the failure banner
`处理失败` and that stored error message. -/
theorem c4_degrade_after_failures (w : World) (topic : String) (max_results : Int)
    (h : ∀ i q m, w.searchResponses i q m = CallResult.ok []) :
    (agentRun w topic max_results).trace.map (fun r => r.node) =
      ["search", "search", "search", "search", "error"] ∧
    (agentRun w topic max_results).state.error = some ("搜索返回空结果") ∧
    (∃ pre post, (agentRun w topic max_results).state.final_report =
      pre ++ ("处理失败" ++ post)) ∧
    (∃ pre post, (agentRun w topic max_results).state.final_report =
      pre ++ ("搜索返回空结果" ++ post)) := by
  obtain ⟨sr, lr, si, li, now⟩ := w
  have hsr : sr = fun _ _ _ => CallResult.ok [] := by
    funext i q m
    exact h i q m
  subst hsr
  have hF : (agentRun ⟨fun _ _ _ => CallResult.ok [], lr, si, li, now⟩
      topic max_results).state.final_report =
      "# " ++ topic ++ " - 处理失败报告\n\n**生成时间**: " ++ now ++
      "  \n**状态**: ❌ 处理失败\n\n---\n\n## ⚠️ 错误信息\n\n" ++ "搜索返回空结果" ++
      "\n\n---\n\n## 📊 已完成的步骤\n\n" ++ "- ❌ 搜索: 未获取到结果\n" ++
      "\n---\n\n## 🔄 重试统计\n\n- 搜索重试次数: " ++ toString (3 : Nat) ++
      "/3\n- 摘要重试次数: " ++ toString (0 : Nat) ++
      "/2\n\n---\n\n## 💡 建议\n\n1. 请检查网络连接\n2. 尝试更换搜索关键词\n3. 稍后再试\n\n" ++
      "---\n\n*本报告由 AI Agent 自动生成*\n" := rfl
  refine ⟨rfl, rfl, ?_, ?_⟩
  · have hA : (" - 处理失败报告\n\n**生成时间**: " : String) =
        " - " ++ ("处理失败" ++ "报告\n\n**生成时间**: ") := rfl
    refine ⟨"# " ++ topic ++ " - ",
      "报告\n\n**生成时间**: " ++ now ++
      "  \n**状态**: ❌ 处理失败\n\n---\n\n## ⚠️ 错误信息\n\n" ++ "搜索返回空结果" ++
      "\n\n---\n\n## 📊 已完成的步骤\n\n" ++ "- ❌ 搜索: 未获取到结果\n" ++
      "\n---\n\n## 🔄 重试统计\n\n- 搜索重试次数: " ++ toString (3 : Nat) ++
      "/3\n- 摘要重试次数: " ++ toString (0 : Nat) ++
      "/2\n\n---\n\n## 💡 建议\n\n1. 请检查网络连接\n2. 尝试更换搜索关键词\n3. 稍后再试\n\n" ++
      "---\n\n*本报告由 AI Agent 自动生成*\n", ?_⟩
    rw [hF, hA]
    simp only [String.append_assoc]
  · refine ⟨"# " ++ topic ++ " - 处理失败报告\n\n**生成时间**: " ++ now ++
      "  \n**状态**: ❌ 处理失败\n\n---\n\n## ⚠️ 错误信息\n\n",
      "\n\n---\n\n## 📊 已完成的步骤\n\n" ++ "- ❌ 搜索: 未获取到结果\n" ++
      "\n---\n\n## 🔄 重试统计\n\n- 搜索重试次数: " ++ toString (3 : Nat) ++
      "/3\n- 摘要重试次数: " ++ toString (0 : Nat) ++
      "/2\n\n---\n\n## 💡 建议\n\n1. 请检查网络连接\n2. 尝试更换搜索关键词\n3. 稍后再试\n\n" ++
      "---\n\n*本报告由 AI Agent 自动生成*\n", ?_⟩
    rw [hF]
    simp only [String.append_assoc]

/-- C4 witness: the always-empty world `wEmpty` satisfies the amended
claim's hypothesis and conclusions. -/
theorem c4_witness :
    (∀ (i : Nat) (q : String) (m : Int),
      wEmpty.searchResponses i q m = CallResult.ok []) ∧
    ((agentRun wEmpty ("Y") 4).trace.map (fun r => r.node) =
      ["search", "search", "search", "search", "error"] ∧
    (agentRun wEmpty ("Y") 4).state.error = some ("搜索返回空结果") ∧
    (∃ pre post, (agentRun wEmpty ("Y") 4).state.final_report =
      pre ++ ("处理失败" ++ post)) ∧
    (∃ pre post, (agentRun wEmpty ("Y") 4).state.final_report =
      pre ++ ("搜索返回空结果" ++ post))) :=
  ⟨fun _ _ _ => rfl, c4_degrade_after_failures wEmpty ("Y") 4 (fun _ _ _ => rfl)⟩
